import Mathlib

/- Verification of the port-resolution and configuration-publication logic of
src/vehicle_tracking/tauri-map/src-tauri/src/main.rs. Strings are modelled as
lists of characters, paths as lists of path components, and the filesystem as
a partial map from paths to file contents. -/

/-- Strings are modelled as lists of characters. -/
abbrev Str : Type := List Char

/-- The character list of a Lean string literal. -/
def str (s : String) : Str := s.data

/-- The decimal digit character for a digit value below ten; mirrors the
decimal formatting used by the Rust Display implementation for u16. -/
def digitChar (d : Nat) : Char :=
  match d with
  | 0 => '0'
  | 1 => '1'
  | 2 => '2'
  | 3 => '3'
  | 4 => '4'
  | 5 => '5'
  | 6 => '6'
  | 7 => '7'
  | 8 => '8'
  | _ => '9'

/-- Loop extracting decimal digits least-significant first and accumulating
them in front, with explicit fuel so the kernel can evaluate it. -/
def natDigitsCore : Nat → Nat → Str → Str
  | 0, _, acc => acc
  | fuel + 1, n, acc =>
    if n = 0 then acc
    else natDigitsCore fuel (n / 10) (digitChar (n % 10) :: acc)

/-- Decimal representation of a natural number, most significant digit first;
models the formatting of a u16 port value by the Rust code. -/
def natDigits (n : Nat) : Str :=
  if n = 0 then ['0'] else natDigitsCore n n []

/-- Strips a single leading plus sign; models the sign handling of Rust
u16 parsing (for unsigned integers only a leading plus is accepted). -/
def stripPlus (s : Str) : Str :=
  match s with
  | [] => []
  | c :: rest => if c = '+' then rest else c :: rest

/-- Models Rust u16 parsing as done by the calls in get_ws_port: an optional
leading plus sign followed by one or more ASCII digits whose value fits in
16 bits; anything else fails. -/
def rustParseU16 (s : Str) : Option Nat :=
  let ds := stripPlus s
  if ds.isEmpty then none
  else if ds.all Char.isDigit then
    let v := ds.foldl (fun a c => a * 10 + (c.toNat - 48)) 0
    if v ≤ 65535 then some v else none
  else none

/-- The literal flag text checked by get_ws_port on the first argument. -/
def wsFlag : Str := str "--ws-port="

/-- Processing of the first command-line argument in get_ws_port: with the
flag present the remainder after it is parsed, otherwise the whole argument
is parsed directly. -/
def parseFirstArg (arg : Str) : Option Nat :=
  if wsFlag.isPrefixOf arg then rustParseU16 (arg.drop wsFlag.length)
  else rustParseU16 arg

/-- The fixed default port of get_ws_port. -/
def defaultPort : Nat := 8765

/-- The pure port-resolution logic of get_ws_port: the element at index 1 of
the argument vector (index 0 is the program name), then the TAURI_WS_PORT
environment variable, then the fixed default. -/
def resolvePort (args : List Str) (envWsPort : Option Str) : Nat :=
  (((args.get? 1).bind parseFirstArg).orElse
    (fun _ => envWsPort.bind rustParseU16)).getD defaultPort

/-- Filesystem paths are modelled as lists of path components. -/
abbrev FsPath : Type := List Str

/-- Models the parent operation on paths: none for an empty path, otherwise
the path without its last component. -/
def pathParent : FsPath → Option FsPath
  | [] => none
  | c :: rest => some ((c :: rest).dropLast)

/-- The artifact path computed by write_ws_config: three parent steps from
the executable directory, then the components src and ws-config.js. -/
def wsConfigPath (exeDir : FsPath) : Option FsPath :=
  (((pathParent exeDir).bind pathParent).bind pathParent).map
    (fun p => p ++ [str "src", str "ws-config.js"])

/-- A local date-time as supplied by the clock. -/
structure DateTime where
  year : Nat
  month : Nat
  day : Nat
  hour : Nat
  minute : Nat
  second : Nat

/-- Left-pads a digit string with zeros to the given width; models the
zero-padding of the chrono format specifiers. -/
def padZeros (w : Nat) (s : Str) : Str :=
  List.replicate (w - s.length) '0' ++ s

/-- Models the chrono format string %Y-%m-%d %H:%M:%S used in
write_ws_config on the local current time. -/
def formatTimestamp (t : DateTime) : Str :=
  padZeros 4 (natDigits t.year) ++ '-' :: padZeros 2 (natDigits t.month)
    ++ '-' :: padZeros 2 (natDigits t.day) ++ ' ' :: padZeros 2 (natDigits t.hour)
    ++ ':' :: padZeros 2 (natDigits t.minute) ++ ':' :: padZeros 2 (natDigits t.second)

/-- The file content formatted by write_ws_config. -/
def configContent (port : Nat) (timestamp : Str) : Str :=
  str "// Auto-generated WebSocket configuration\nwindow.WS_CONFIG = \x7b\n\tport: "
    ++ natDigits port
    ++ str ",\n\ttimestamp: \x27"
    ++ timestamp
    ++ str "\x27\n\x7d;\nconsole.log(\x27[ws-config.js] WebSocket port configured:\x27, "
    ++ natDigits port ++ str ");"

/-- The filesystem: a partial map from paths to file contents. A successful
write replaces the whole content, as fs::write truncates. -/
def FsState : Type := FsPath → Option Str

/-- Result of one write_ws_config call: the filesystem afterwards and the
error message printed to the diagnostic stream, if any. -/
structure WriteResult where
  fs : FsState
  errOut : Option Str

/-- Models write_ws_config: computes the artifact path from the executable
directory; when the path is computable, formats the content and writes it,
logging a message when the injected write failure fires; when the parent
chain runs out, does nothing at all. -/
def write_ws_config (exeDir : FsPath) (now : DateTime) (fsFail : FsPath → Bool)
    (fs : FsState) (port : Nat) : WriteResult :=
  match wsConfigPath exeDir with
  | some configPath =>
    if fsFail configPath then
      { fs := fs, errOut := some (str "Failed to write ws-config.js") }
    else
      { fs := fun q =>
          if q = configPath then some (configContent port (formatTimestamp now)) else fs q,
        errOut := none }
  | none => { fs := fs, errOut := none }

/-- The ambient process state read by the commands: the argument vector
(index 0 is the program name), the two environment variables, the
executable's directory, the current local time, and the injected
write-failure behaviour of the filesystem. -/
structure World where
  args : List Str
  envWsPort : Option Str
  envMapboxToken : Option Str
  exeDir : FsPath
  now : DateTime
  fsFail : FsPath → Bool

/-- Result of one get_ws_port call. -/
structure PortResult where
  port : Nat
  fs : FsState
  errOut : Option Str

/-- Models get_ws_port: resolves the port from the argument vector, the
TAURI_WS_PORT variable or the default, writes the configuration artifact,
and returns the port. -/
def get_ws_port (w : World) (fs : FsState) : PortResult :=
  let port := resolvePort w.args w.envWsPort
  let wr := write_ws_config w.exeDir w.now w.fsFail fs port
  { port := port, fs := wr.fs, errOut := wr.errOut }

/-- The record composed by get_map_config. -/
structure MapConfig where
  mapboxToken : Option Str
  wsPort : Nat

/-- Result of one get_map_config call. -/
structure MapConfigResult where
  config : MapConfig
  fs : FsState
  errOut : Option Str

/-- Models get_map_config: reads MAPBOX_TOKEN verbatim into the record and
calls get_ws_port, which also writes the artifact. -/
def get_map_config (w : World) (fs : FsState) : MapConfigResult :=
  let r := get_ws_port w fs
  { config := { mapboxToken := w.envMapboxToken, wsPort := r.port },
    fs := r.fs, errOut := r.errOut }

/-- The navigation script formatted in the setup closure of main. -/
def navScript (port : Nat) : Str :=
  str "window.location.href = \x27mapbox.html?port=" ++ natDigits port ++ str "\x27"

/-- Specification-side description of the navigation target: the fixed page
path with the port as its single query parameter. -/
def navTarget (port : Nat) : Str :=
  str "mapbox.html?port=" ++ natDigits port

/-- Models the spawned navigation thread body: the eval result is discarded
and the thread returns unit regardless of it. -/
def navThread (evalResult : Except Str Unit) : Unit :=
  let _ := evalResult.toOption
  ()

/-- Specification-side reader: the remainder of a string just after the
first occurrence of the given token. -/
def findAfter (tok : Str) : Str → Option Str
  | [] => none
  | c :: rest =>
    if tok = (c :: rest).take tok.length then some ((c :: rest).drop tok.length)
    else findAfter tok rest

/-- Specification-side reader of the port field of the generated artifact:
the digit run following the field label, parsed back as a number. -/
def portFieldValue (content : Str) : Option Nat :=
  (findAfter (str "\tport: ") content).bind
    (fun s => rustParseU16 (s.takeWhile Char.isDigit))

/-- The shape YYYY-MM-DD HH:MM:SS: four digits, dash, two digits, dash, two
digits, space, two digits, colon, two digits, colon, two digits. -/
def timestampShaped (s : Str) : Prop :=
  ∃ y mo d h mi se : Str,
    s = y ++ '-' :: mo ++ '-' :: d ++ ' ' :: h ++ ':' :: mi ++ ':' :: se
    ∧ y.length = 4 ∧ mo.length = 2 ∧ d.length = 2 ∧ h.length = 2
    ∧ mi.length = 2 ∧ se.length = 2
    ∧ (∀ c ∈ y, c.isDigit = true) ∧ (∀ c ∈ mo, c.isDigit = true)
    ∧ (∀ c ∈ d, c.isDigit = true) ∧ (∀ c ∈ h, c.isDigit = true)
    ∧ (∀ c ∈ mi, c.isDigit = true) ∧ (∀ c ∈ se, c.isDigit = true)

lemma natDigitsCore_eq (fuel : Nat) : ∀ n acc, n ≤ fuel →
    natDigitsCore fuel n acc = ((Nat.digits 10 n).map digitChar).reverse ++ acc := by
  induction fuel with
  | zero =>
    intro n acc h
    interval_cases n
    simp [natDigitsCore]
  | succ fuel ih =>
    intro n acc h
    by_cases hn : n = 0
    · subst hn; simp [natDigitsCore]
    · have hdiv : n / 10 ≤ fuel := by
        have : n / 10 < n := Nat.div_lt_self (Nat.pos_of_ne_zero hn) (by norm_num)
        omega
      rw [natDigitsCore, if_neg hn, ih _ _ hdiv,
        Nat.digits_def' (by norm_num : (1:ℕ) < 10) (Nat.pos_of_ne_zero hn)]
      simp

lemma natDigits_eq_digits (n : Nat) (hn : n ≠ 0) :
    natDigits n = ((Nat.digits 10 n).map digitChar).reverse := by
  rw [natDigits, if_neg hn, natDigitsCore_eq n n [] le_rfl, List.append_nil]

lemma digitChar_isDigit {d : Nat} (h : d < 10) : (digitChar d).isDigit = true := by
  interval_cases d <;> decide

lemma digitChar_toNat {d : Nat} (h : d < 10) : (digitChar d).toNat = 48 + d := by
  interval_cases d <;> decide

lemma foldl_digits (l : List Nat) (h : ∀ d ∈ l, d < 10) : ∀ acc : Nat,
    ((l.map digitChar).reverse.foldl (fun a c => a * 10 + (c.toNat - 48)) acc)
      = acc * 10 ^ l.length + Nat.ofDigits 10 l := by
  induction l with
  | nil => intro acc; simp [Nat.ofDigits]
  | cons d t ih =>
    intro acc
    have hd : d < 10 := h d (List.mem_cons_self d t)
    have ht : ∀ x ∈ t, x < 10 := fun x hx => h x (List.mem_cons_of_mem d hx)
    rw [List.map_cons, List.reverse_cons, List.foldl_append, ih ht acc]
    simp only [List.foldl_cons, List.foldl_nil, Nat.ofDigits_cons, List.length_cons,
      digitChar_toNat hd, Nat.cast_id]
    have h48 : 48 + d - 48 = d := by omega
    rw [h48]
    ring

lemma natDigits_all_isDigit (n : Nat) : ∀ c ∈ natDigits n, c.isDigit = true := by
  by_cases hn : n = 0
  · subst hn; intro c hc; simp [natDigits] at hc; subst hc; decide
  · rw [natDigits_eq_digits n hn]
    intro c hc
    rw [List.mem_reverse, List.mem_map] at hc
    obtain ⟨d, hd, rfl⟩ := hc
    exact digitChar_isDigit (Nat.digits_lt_base (by norm_num) hd)

lemma natDigits_ne_nil (n : Nat) : natDigits n ≠ [] := by
  by_cases hn : n = 0
  · subst hn; simp [natDigits]
  · rw [natDigits_eq_digits n hn]
    simp [Nat.digits_ne_nil_iff_ne_zero.mpr hn]

lemma rustParseU16_natDigits (n : Nat) (h : n ≤ 65535) :
    rustParseU16 (natDigits n) = some n := by
  by_cases hn : n = 0
  · subst hn; decide
  · obtain ⟨c, t, hct⟩ : ∃ c t, natDigits n = c :: t := by
      cases hnd : natDigits n with
      | nil => exact absurd hnd (natDigits_ne_nil n)
      | cons c t => exact ⟨c, t, rfl⟩
    have hcd : c.isDigit = true := natDigits_all_isDigit n c (hct ▸ List.mem_cons_self c t)
    have hcp : c ≠ '+' := by
      intro hc; subst hc; exact absurd hcd (by decide)
    have hstrip : stripPlus (natDigits n) = natDigits n := by
      rw [hct, stripPlus, if_neg hcp]
    have hfold : (natDigits n).foldl (fun a c => a * 10 + (c.toNat - 48)) 0 = n := by
      rw [natDigits_eq_digits n hn,
        foldl_digits (Nat.digits 10 n) (fun d hd => Nat.digits_lt_base (by norm_num) hd) 0,
        Nat.ofDigits_digits]
      ring
    rw [rustParseU16]
    simp only [hstrip]
    rw [if_neg (by rw [hct]; simp), if_pos (by
      rw [List.all_eq_true]; intro c hc; exact natDigits_all_isDigit n c hc)]
    simp only [hfold, if_pos h]

example : rustParseU16 (str "8765") = some 8765 := by decide
example : rustParseU16 (str "+80") = some 80 := by decide
example : rustParseU16 (str "") = none := by decide
example : rustParseU16 (str "+") = none := by decide
example : rustParseU16 (str "-1") = none := by decide
example : rustParseU16 (str "65536") = none := by decide
example : rustParseU16 (str "65535") = some 65535 := by decide
example : rustParseU16 (str "7a") = none := by decide
example : resolvePort [str "app", str "--ws-port=9999"] none = 9999 := by decide
example : resolvePort [str "app", str "7000"] none = 7000 := by decide
example : resolvePort [str "app"] (some (str "7000")) = 7000 := by decide
example : resolvePort [str "app"] none = 8765 := by decide
example : resolvePort [str "app", str "abc"] (some (str "7000")) = 7000 := by decide
example : resolvePort [str "app", str "--ws-port=abc"] none = 8765 := by decide
example : natDigits 9999 = str "9999" := by decide
example : natDigits 0 = str "0" := by decide

lemma stripPlus_natDigits (n : Nat) : stripPlus (natDigits n) = natDigits n := by
  cases hnd : natDigits n with
  | nil => rfl
  | cons c t =>
    have hcd : c.isDigit = true := natDigits_all_isDigit n c (hnd ▸ List.mem_cons_self c t)
    have hcp : c ≠ '+' := by intro hc; subst hc; exact absurd hcd (by decide)
    rw [stripPlus, if_neg hcp]

lemma stripPlus_plus (s : Str) : stripPlus ('+' :: s) = s := by
  rw [stripPlus, if_pos rfl]

lemma rustParseU16_congr {s s' : Str} (h : stripPlus s = stripPlus s') :
    rustParseU16 s = rustParseU16 s' := by
  rw [rustParseU16, rustParseU16, h]

lemma rustParseU16_plus_natDigits (n : Nat) (h : n ≤ 65535) :
    rustParseU16 ('+' :: natDigits n) = some n := by
  have hs : stripPlus ('+' :: natDigits n) = stripPlus (natDigits n) := by
    rw [stripPlus_plus, stripPlus_natDigits]
  rw [rustParseU16_congr hs]
  exact rustParseU16_natDigits n h

lemma wsFlag_isPrefixOf_eq_false {c : Char} {t : Str} (h : c ≠ '-') :
    wsFlag.isPrefixOf (c :: t) = false := by
  have hflag : wsFlag = '-' :: str "-ws-port=" := by decide
  rw [hflag, List.isPrefixOf_cons₂]
  have hb : ('-' == c) = false := beq_eq_false_iff_ne.mpr (fun hc => h hc.symm)
  rw [hb, Bool.false_and]

lemma parseFirstArg_flagged (s : Str) :
    parseFirstArg (wsFlag ++ s) = rustParseU16 s := by
  rw [parseFirstArg, if_pos, List.drop_left]
  rw [List.isPrefixOf_iff_prefix]
  exact List.prefix_append wsFlag s

lemma parseFirstArg_bare {c : Char} {t : Str} (h : c ≠ '-') :
    parseFirstArg (c :: t) = rustParseU16 (c :: t) := by
  rw [parseFirstArg, if_neg]
  rw [wsFlag_isPrefixOf_eq_false h]
  exact Bool.false_ne_true

lemma natDigits_head_isDigit (n : Nat) :
    ∃ c t, natDigits n = c :: t ∧ c.isDigit = true := by
  cases hnd : natDigits n with
  | nil => exact absurd hnd (natDigits_ne_nil n)
  | cons c t =>
    exact ⟨c, t, rfl, natDigits_all_isDigit n c (hnd ▸ List.mem_cons_self c t)⟩

lemma isDigit_ne_dash {c : Char} (h : c.isDigit = true) : c ≠ '-' := by
  intro hc; subst hc; exact absurd h (by decide)

lemma resolvePort_of_arg {args : List Str} (env : Option Str) {s : Str} {n : Nat}
    (hs : args.get? 1 = some s) (hp : parseFirstArg s = some n) :
    resolvePort args env = n := by
  rw [resolvePort, hs]
  simp [hp, Option.orElse]

lemma resolvePort_of_no_arg {args : List Str} (env : Option Str)
    (h : (args.get? 1).bind parseFirstArg = none) :
    resolvePort args env = (env.bind rustParseU16).getD defaultPort := by
  rw [resolvePort, h]
  rfl

lemma pathParent_of_ne_nil {p : FsPath} (h : p ≠ []) : pathParent p = some p.dropLast := by
  cases p with
  | nil => exact absurd rfl h
  | cons c rest => rfl

lemma wsConfigPath_of_long {p : FsPath} (h : 3 ≤ p.length) :
    wsConfigPath p
      = some (p.take (p.length - 3) ++ [str "src", str "ws-config.js"]) := by
  have h1 : p ≠ [] := by
    intro hp; subst hp; simp at h
  have l1 : p.dropLast.length = p.length - 1 := List.length_dropLast p
  have h2 : p.dropLast ≠ [] := by
    apply List.ne_nil_of_length_pos; omega
  have l2 : p.dropLast.dropLast.length = p.length - 2 := by
    rw [List.length_dropLast]; omega
  have h3 : p.dropLast.dropLast ≠ [] := by
    apply List.ne_nil_of_length_pos; omega
  have hchain : p.dropLast.dropLast.dropLast = p.take (p.length - 3) := by
    rw [List.dropLast_eq_take, l2, List.dropLast_eq_take, l1, List.dropLast_eq_take,
      List.take_take, List.take_take]
    congr 1
    omega
  simp only [wsConfigPath, pathParent_of_ne_nil h1, Option.some_bind,
    pathParent_of_ne_nil h2, pathParent_of_ne_nil h3, Option.map_some']
  rw [hchain]

lemma wsConfigPath_of_short {p : FsPath} (h : p.length < 3) : wsConfigPath p = none := by
  match p, h with
  | [], _ => rfl
  | [a], _ => rfl
  | [a, b], _ => rfl

lemma rustParseU16_le_65535 {s : Str} {n : Nat} (h : rustParseU16 s = some n) :
    n ≤ 65535 := by
  simp only [rustParseU16] at h
  by_cases h1 : (stripPlus s).isEmpty
  · rw [if_pos h1] at h; cases h
  · rw [if_neg h1] at h
    by_cases h2 : (stripPlus s).all Char.isDigit
    · rw [if_pos h2] at h
      by_cases h3 : (stripPlus s).foldl (fun a c => a * 10 + (c.toNat - 48)) 0 ≤ 65535
      · rw [if_pos h3] at h
        cases h
        exact h3
      · rw [if_neg h3] at h; cases h
    · rw [if_neg h2] at h; cases h

lemma parseFirstArg_le_65535 {s : Str} {n : Nat} (h : parseFirstArg s = some n) :
    n ≤ 65535 := by
  rw [parseFirstArg] at h
  split at h
  · exact rustParseU16_le_65535 h
  · exact rustParseU16_le_65535 h

lemma resolvePort_le_65535 (args : List Str) (env : Option Str) :
    resolvePort args env ≤ 65535 := by
  rw [resolvePort]
  cases ha : (args.get? 1).bind parseFirstArg with
  | some n =>
    obtain ⟨s, _, hp⟩ := Option.bind_eq_some.mp ha
    simp [Option.orElse]
    exact parseFirstArg_le_65535 hp
  | none =>
    cases he : env.bind rustParseU16 with
    | some n =>
      obtain ⟨s, _, hp⟩ := Option.bind_eq_some.mp he
      simp [Option.orElse]
      exact rustParseU16_le_65535 hp
    | none => simp [Option.orElse, defaultPort]

lemma findAfter_append_of_not_mem (c : Char) (tokRest : Str) :
    ∀ pre rest : Str, c ∉ pre →
      findAfter (c :: tokRest) (pre ++ (c :: tokRest) ++ rest) = some rest := by
  intro pre
  induction pre with
  | nil =>
    intro rest h
    rw [List.nil_append]
    have e : ((c :: tokRest) ++ rest : Str) = c :: (tokRest ++ rest) := rfl
    rw [e, findAfter, if_pos, ← e, List.drop_left]
    rw [← e, List.take_left]
  | cons p ps ih =>
    intro rest h
    have hcp : c ≠ p := fun hc => h (hc ▸ List.mem_cons_self p ps)
    have e : ((p :: ps) ++ (c :: tokRest) ++ rest : Str)
        = p :: (ps ++ (c :: tokRest) ++ rest) := by simp
    have hne : ¬ ((c :: tokRest : Str)
        = (p :: (ps ++ (c :: tokRest) ++ rest)).take (c :: tokRest).length) := by
      rw [List.length_cons, List.take_succ_cons]
      intro hEq
      injection hEq with h1 _
      exact hcp h1
    rw [e, findAfter, if_neg hne]
    exact ih rest (fun hm => h (List.mem_cons_of_mem p hm))

lemma takeWhile_digits_of_comma (l rest : Str) (hl : ∀ c ∈ l, c.isDigit = true) :
    (l ++ ',' :: rest).takeWhile Char.isDigit = l := by
  rw [List.takeWhile_append_of_pos hl, List.takeWhile_cons_of_neg (by decide),
    List.append_nil]

lemma portFieldValue_configContent (p : Nat) (hp : p ≤ 65535) (ts : Str) :
    portFieldValue (configContent p ts) = some p := by
  have htok : (str "\tport: " : Str) = '\t' :: str "port: " := by decide
  have hpre : ('\t' : Char)
      ∉ (str "// Auto-generated WebSocket configuration\nwindow.WS_CONFIG = \x7b\n" : Str) := by
    decide
  have hsplit : configContent p ts
      = str "// Auto-generated WebSocket configuration\nwindow.WS_CONFIG = \x7b\n"
          ++ ('\t' :: str "port: ")
          ++ (natDigits p ++ ',' :: (str "\n\ttimestamp: \x27"
              ++ ts
              ++ str "\x27\n\x7d;\nconsole.log(\x27[ws-config.js] WebSocket port configured:\x27, "
              ++ natDigits p ++ str ");")) := by
    have h1 : (str "// Auto-generated WebSocket configuration\nwindow.WS_CONFIG = \x7b\n\tport: " : Str)
        = str "// Auto-generated WebSocket configuration\nwindow.WS_CONFIG = \x7b\n"
            ++ ('\t' :: str "port: ") := by decide
    have h2 : (str ",\n\ttimestamp: \x27" : Str) = ',' :: str "\n\ttimestamp: \x27" := by
      decide
    rw [configContent, h1, h2]
    simp [List.append_assoc]
  rw [portFieldValue, htok, hsplit,
    findAfter_append_of_not_mem '\t' (str "port: ") _ _ hpre, Option.some_bind,
    takeWhile_digits_of_comma _ _ (natDigits_all_isDigit p)]
  exact rustParseU16_natDigits p hp

lemma natDigits_length_le {n k : Nat} (hk : 0 < k) (h : n < 10 ^ k) :
    (natDigits n).length ≤ k := by
  by_cases hn : n = 0
  · subst hn
    have h0 : natDigits 0 = ['0'] := by decide
    rw [h0]
    simpa using hk
  · rw [natDigits_eq_digits n hn, List.length_reverse, List.length_map]
    have h1 : 10 ^ (Nat.digits 10 n).length ≤ 10 * n :=
      Nat.base_pow_length_digits_le 10 n (by norm_num) hn
    have h2 : 10 * n < 10 ^ (k + 1) := by
      rw [pow_succ]
      omega
    by_contra hc
    push_neg at hc
    have h3 : 10 ^ (k + 1) ≤ 10 ^ (Nat.digits 10 n).length :=
      Nat.pow_le_pow_right (by norm_num) hc
    omega

lemma padZeros_length {w : Nat} {s : Str} (h : s.length ≤ w) :
    (padZeros w s).length = w := by
  rw [padZeros, List.length_append, List.length_replicate]
  omega

lemma padZeros_digits {w : Nat} {s : Str} (hd : ∀ c ∈ s, c.isDigit = true) :
    ∀ c ∈ padZeros w s, c.isDigit = true := by
  intro c hc
  rw [padZeros, List.mem_append] at hc
  cases hc with
  | inl h0 => rw [List.eq_of_mem_replicate h0]; decide
  | inr hs => exact hd c hs

lemma fmt4_length {n : Nat} (h : n < 10000) : (padZeros 4 (natDigits n)).length = 4 := by
  refine padZeros_length (natDigits_length_le (by norm_num) ?_)
  have : (10:Nat) ^ 4 = 10000 := by norm_num
  omega

lemma fmt2_length {n : Nat} (h : n < 100) : (padZeros 2 (natDigits n)).length = 2 := by
  refine padZeros_length (natDigits_length_le (by norm_num) ?_)
  have : (10:Nat) ^ 2 = 100 := by norm_num
  omega

lemma formatTimestamp_shaped (t : DateTime) (hy : t.year < 10000)
    (hmo : t.month < 100) (hd : t.day < 100) (hh : t.hour < 100)
    (hmi : t.minute < 100) (hs : t.second < 100) :
    timestampShaped (formatTimestamp t) :=
  ⟨padZeros 4 (natDigits t.year), padZeros 2 (natDigits t.month),
    padZeros 2 (natDigits t.day), padZeros 2 (natDigits t.hour),
    padZeros 2 (natDigits t.minute), padZeros 2 (natDigits t.second),
    rfl, fmt4_length hy, fmt2_length hmo, fmt2_length hd, fmt2_length hh,
    fmt2_length hmi, fmt2_length hs,
    padZeros_digits (natDigits_all_isDigit _), padZeros_digits (natDigits_all_isDigit _),
    padZeros_digits (natDigits_all_isDigit _), padZeros_digits (natDigits_all_isDigit _),
    padZeros_digits (natDigits_all_isDigit _), padZeros_digits (natDigits_all_isDigit _)⟩

/-- C1: get_ws_port always returns a port value: the returned port is
independent of the filesystem contents and of any injected write failure
and always equals the pure resolution of arguments and environment, while
a write failure is only recorded on the diagnostic stream, never
propagated to the caller. -/
theorem c1_resolve_port_never_fails (w : World) (fs fs' : FsState)
    (fail fail' : FsPath → Bool) :
    (get_ws_port { w with fsFail := fail } fs).port
        = (get_ws_port { w with fsFail := fail' } fs').port
    ∧ (get_ws_port w fs).port = resolvePort w.args w.envWsPort
    ∧ (get_ws_port w fs).errOut
        = (match wsConfigPath w.exeDir with
           | some cp =>
             if w.fsFail cp then some (str "Failed to write ws-config.js") else none
           | none => none) := by
  refine ⟨rfl, rfl, ?_⟩
  cases hpath : wsConfigPath w.exeDir with
  | none => simp [get_ws_port, write_ws_config, hpath]
  | some cp =>
    by_cases hf : w.fsFail cp <;> simp [get_ws_port, write_ws_config, hpath, hf]

/-- C2: for every port number up to 65535 given as the first argument, in
flag form or in bare form, resolution yields exactly that number whatever
the environment variable holds. -/
theorem c2_valid_argument_wins (prog : Str) (rest : List Str) (env : Option Str)
    (n : Nat) (h : n ≤ 65535) :
    resolvePort (prog :: (wsFlag ++ natDigits n) :: rest) env = n
    ∧ resolvePort (prog :: natDigits n :: rest) env = n := by
  constructor
  · exact resolvePort_of_arg env rfl
      (by rw [parseFirstArg_flagged, rustParseU16_natDigits n h])
  · obtain ⟨c, t, hct, hcd⟩ := natDigits_head_isDigit n
    refine resolvePort_of_arg env rfl ?_
    rw [hct, parseFirstArg_bare (isDigit_ne_dash hcd), ← hct,
      rustParseU16_natDigits n h]

theorem c2_witness :
    9999 ≤ 65535
    ∧ (resolvePort [str "app", wsFlag ++ natDigits 9999] (some (str "7000")) = 9999
       ∧ resolvePort [str "app", natDigits 9999] (some (str "7000")) = 9999) :=
  ⟨by decide, c2_valid_argument_wins (str "app") [] (some (str "7000")) 9999 (by decide)⟩

/-- C3: when the first argument is absent or parses in neither form,
resolution yields the parsed TAURI_WS_PORT value when that parses, and the
fixed default 8765 otherwise. -/
theorem c3_env_fallback_then_default (args : List Str) (env : Option Str)
    (h : (args.get? 1).bind parseFirstArg = none) :
    resolvePort args env = (env.bind rustParseU16).getD 8765 :=
  resolvePort_of_no_arg env h

theorem c3_witness :
    (([str "app", str "nope"] : List Str).get? 1).bind parseFirstArg = none
    ∧ resolvePort [str "app", str "nope"] (some (str "7000"))
        = ((some (str "7000") : Option Str).bind rustParseU16).getD 8765 :=
  ⟨by decide,
    c3_env_fallback_then_default [str "app", str "nope"] (some (str "7000")) (by decide)⟩

/-- C4: with at least three ancestor directories available, the artifact
path is the executable directory less its last three components extended
by src and ws-config.js, and for every port the write touches no other
path than this one. -/
theorem c4_artifact_path_fixed (exeDir : FsPath) (h : 3 ≤ exeDir.length) :
    wsConfigPath exeDir
      = some (exeDir.take (exeDir.length - 3) ++ [str "src", str "ws-config.js"])
    ∧ ∀ (now : DateTime) (fail : FsPath → Bool) (fs : FsState) (port : Nat) (q : FsPath),
        q ≠ exeDir.take (exeDir.length - 3) ++ [str "src", str "ws-config.js"] →
        (write_ws_config exeDir now fail fs port).fs q = fs q := by
  have h1 := wsConfigPath_of_long h
  refine ⟨h1, ?_⟩
  intro now fail fs port q hq
  simp only [write_ws_config, h1]
  by_cases hf : fail (exeDir.take (exeDir.length - 3) ++ [str "src", str "ws-config.js"])
  · simp [hf]
  · simp [hf, hq]

theorem c4_witness :
    3 ≤ ([str "home", str "user", str "app", str "target", str "release"] : FsPath).length
    ∧ wsConfigPath [str "home", str "user", str "app", str "target", str "release"]
        = some ([str "home", str "user", str "app", str "target",
            str "release"].take (5 - 3) ++ [str "src", str "ws-config.js"]) :=
  ⟨by decide,
    (c4_artifact_path_fixed
      [str "home", str "user", str "app", str "target", str "release"] (by decide)).1⟩

/-- C5: after a successful publication the artifact holds exactly the
formatted content: its port field parses back to the resolved port, its
timestamp is the local time formatted in YYYY-MM-DD HH:MM:SS shape and is
followed by a diagnostic log statement echoing the port, and a second
resolution call replaces the whole content with that of the second call
alone rather than appending to the file. -/
theorem c5_artifact_content_roundtrip (w w2 : World) (fs : FsState) (cp : FsPath)
    (hdir : w2.exeDir = w.exeDir)
    (hcp : wsConfigPath w.exeDir = some cp)
    (hok : w.fsFail cp = false) (hok2 : w2.fsFail cp = false)
    (hy : w.now.year < 10000) (hmo : w.now.month < 100) (hd : w.now.day < 100)
    (hh : w.now.hour < 100) (hmi : w.now.minute < 100) (hs : w.now.second < 100) :
    (get_ws_port w fs).fs cp
        = some (configContent (resolvePort w.args w.envWsPort) (formatTimestamp w.now))
    ∧ portFieldValue
        (configContent (resolvePort w.args w.envWsPort) (formatTimestamp w.now))
        = some (resolvePort w.args w.envWsPort)
    ∧ timestampShaped (formatTimestamp w.now)
    ∧ (∃ pre : Str,
        configContent (resolvePort w.args w.envWsPort) (formatTimestamp w.now)
          = pre ++ str "console.log(\x27[ws-config.js] WebSocket port configured:\x27, "
              ++ natDigits (resolvePort w.args w.envWsPort) ++ str ");")
    ∧ (get_ws_port w2 ((get_ws_port w fs).fs)).fs cp
        = some (configContent (resolvePort w2.args w2.envWsPort)
            (formatTimestamp w2.now)) := by
  have hwrite : ∀ (w' : World) (fs' : FsState),
      w'.exeDir = w.exeDir → w'.fsFail cp = false →
      (get_ws_port w' fs').fs cp
        = some (configContent (resolvePort w'.args w'.envWsPort)
            (formatTimestamp w'.now)) := by
    intro w' fs' hdir' hok'
    have hcp' : wsConfigPath w'.exeDir = some cp := by rw [hdir']; exact hcp
    simp [get_ws_port, write_ws_config, hcp', hok']
  have hC : (str "\x27\n\x7d;\nconsole.log(\x27[ws-config.js] WebSocket port configured:\x27, " : Str)
      = str "\x27\n\x7d;\n"
          ++ str "console.log(\x27[ws-config.js] WebSocket port configured:\x27, " := by
    decide
  refine ⟨hwrite w fs rfl hok,
    portFieldValue_configContent _ (resolvePort_le_65535 _ _) _,
    formatTimestamp_shaped w.now hy hmo hd hh hmi hs,
    ⟨str "// Auto-generated WebSocket configuration\nwindow.WS_CONFIG = \x7b\n\tport: "
        ++ natDigits (resolvePort w.args w.envWsPort)
        ++ str ",\n\ttimestamp: \x27" ++ formatTimestamp w.now ++ str "\x27\n\x7d;\n", ?_⟩,
    hwrite w2 _ hdir hok2⟩
  rw [configContent, hC]
  simp [List.append_assoc]

theorem c5_witness :
    (wsConfigPath [str "tauri-map", str "src-tauri", str "target", str "release"]
        = some [str "tauri-map", str "src", str "ws-config.js"])
    ∧ ((get_ws_port
          { args := [str "app"], envWsPort := none, envMapboxToken := none,
            exeDir := [str "tauri-map", str "src-tauri", str "target", str "release"],
            now := ⟨2025, 3, 14, 15, 9, 26⟩, fsFail := fun _ => false }
          (fun _ => none)).fs [str "tauri-map", str "src", str "ws-config.js"]
          = some (configContent (resolvePort [str "app"] none)
              (formatTimestamp ⟨2025, 3, 14, 15, 9, 26⟩))
       ∧ portFieldValue (configContent (resolvePort [str "app"] none)
            (formatTimestamp ⟨2025, 3, 14, 15, 9, 26⟩))
          = some (resolvePort [str "app"] none)
       ∧ timestampShaped (formatTimestamp ⟨2025, 3, 14, 15, 9, 26⟩)
       ∧ (∃ pre : Str,
            configContent (resolvePort [str "app"] none)
                (formatTimestamp ⟨2025, 3, 14, 15, 9, 26⟩)
              = pre ++ str "console.log(\x27[ws-config.js] WebSocket port configured:\x27, "
                  ++ natDigits (resolvePort [str "app"] none) ++ str ");")
       ∧ (get_ws_port
            { args := [str "app"], envWsPort := none, envMapboxToken := none,
              exeDir := [str "tauri-map", str "src-tauri", str "target", str "release"],
              now := ⟨2025, 3, 14, 15, 9, 26⟩, fsFail := fun _ => false }
            ((get_ws_port
              { args := [str "app"], envWsPort := none, envMapboxToken := none,
                exeDir := [str "tauri-map", str "src-tauri", str "target", str "release"],
                now := ⟨2025, 3, 14, 15, 9, 26⟩, fsFail := fun _ => false }
              (fun _ => none)).fs)).fs [str "tauri-map", str "src", str "ws-config.js"]
          = some (configContent (resolvePort [str "app"] none)
              (formatTimestamp ⟨2025, 3, 14, 15, 9, 26⟩))) :=
  ⟨by decide,
    c5_artifact_content_roundtrip
      { args := [str "app"], envWsPort := none, envMapboxToken := none,
        exeDir := [str "tauri-map", str "src-tauri", str "target", str "release"],
        now := ⟨2025, 3, 14, 15, 9, 26⟩, fsFail := fun _ => false }
      { args := [str "app"], envWsPort := none, envMapboxToken := none,
        exeDir := [str "tauri-map", str "src-tauri", str "target", str "release"],
        now := ⟨2025, 3, 14, 15, 9, 26⟩, fsFail := fun _ => false }
      (fun _ => none) [str "tauri-map", str "src", str "ws-config.js"]
      rfl (by decide) rfl rfl (by decide) (by decide) (by decide) (by decide)
      (by decide) (by decide)⟩

/-- C6: get_map_config passes MAPBOX_TOKEN through verbatim, its port field
equals the value of get_ws_port on the same world, and calling it performs
exactly the resolution and publication effect of get_ws_port. -/
theorem c6_map_config_composes (w : World) (fs : FsState) :
    (get_map_config w fs).config.mapboxToken = w.envMapboxToken
    ∧ (get_map_config w fs).config.wsPort = (get_ws_port w fs).port
    ∧ (get_map_config w fs).fs = (get_ws_port w fs).fs
    ∧ (get_map_config w fs).errOut = (get_ws_port w fs).errOut :=
  ⟨rfl, rfl, rfl, rfl⟩

/-- C7: the navigation script issued at start-up sets the location to the
fixed page path with the port as its single query parameter, and the result
of issuing it is discarded, leaving the thread result unaffected. -/
theorem c7_navigation_script (port : Nat) :
    navScript port = str "window.location.href = \x27" ++ navTarget port ++ str "\x27"
    ∧ ∀ e1 e2 : Except Str Unit, navThread e1 = navThread e2 := by
  constructor
  · have hsplit : str "window.location.href = \x27mapbox.html?port="
        = str "window.location.href = \x27" ++ str "mapbox.html?port=" := by decide
    rw [navScript, navTarget, hsplit]
    simp [List.append_assoc]
  · intro e1 e2; rfl

/-- C8: resolution is deterministic in the argument list and environment:
the returned port does not depend on the filesystem state it starts from,
and a second invocation run on the filesystem produced by the first
recomputes the same port. -/
theorem c8_resolution_deterministic (w : World) (fs fs' : FsState) :
    (get_ws_port w ((get_ws_port w fs).fs)).port = (get_ws_port w fs).port
    ∧ (get_ws_port w fs').port = (get_ws_port w fs).port :=
  ⟨rfl, rfl⟩

/-- C9: when the executable directory has fewer than three ancestor
directories, the artifact path computation yields nothing, the write is
skipped with no error output and an unchanged filesystem, and the resolved
port is still returned. -/
theorem c9_short_path_silent (w : World) (fs : FsState) (h : w.exeDir.length < 3) :
    wsConfigPath w.exeDir = none
    ∧ get_ws_port w fs
        = { port := resolvePort w.args w.envWsPort, fs := fs, errOut := none } := by
  have h1 := wsConfigPath_of_short h
  refine ⟨h1, ?_⟩
  simp [get_ws_port, write_ws_config, h1]

theorem c9_witness :
    ({ args := [str "app"], envWsPort := none, envMapboxToken := none,
       exeDir := [str "release"], now := ⟨2024, 1, 1, 0, 0, 0⟩,
       fsFail := fun _ => false } : World).exeDir.length < 3
    ∧ (wsConfigPath [str "release"] = none
       ∧ get_ws_port
           { args := [str "app"], envWsPort := none, envMapboxToken := none,
             exeDir := [str "release"], now := ⟨2024, 1, 1, 0, 0, 0⟩,
             fsFail := fun _ => false } (fun _ => none)
           = { port := resolvePort [str "app"] none, fs := fun _ => none,
               errOut := none }) :=
  ⟨by decide,
    c9_short_path_silent
      { args := [str "app"], envWsPort := none, envMapboxToken := none,
        exeDir := [str "release"], now := ⟨2024, 1, 1, 0, 0, 0⟩,
        fsFail := fun _ => false } (fun _ => none) (by decide)⟩

/-- C10: a leading plus sign is accepted by the numeric parsing used for
all three port sources, so flag arguments, bare arguments and environment
values of the form +N resolve to N for every N up to 65535. -/
theorem c10_leading_plus_accepted (prog : Str) (rest : List Str) (env : Option Str)
    (n : Nat) (h : n ≤ 65535) :
    rustParseU16 ('+' :: natDigits n) = some n
    ∧ resolvePort (prog :: (wsFlag ++ '+' :: natDigits n) :: rest) env = n
    ∧ resolvePort (prog :: ('+' :: natDigits n) :: rest) env = n
    ∧ resolvePort [prog] (some ('+' :: natDigits n)) = n := by
  have hp := rustParseU16_plus_natDigits n h
  refine ⟨hp, ?_, ?_, ?_⟩
  · exact resolvePort_of_arg env rfl (by rw [parseFirstArg_flagged, hp])
  · exact resolvePort_of_arg env rfl
      (by rw [parseFirstArg_bare (by decide : ('+' : Char) ≠ '-'), hp])
  · have h0 : (([prog] : List Str).get? 1).bind parseFirstArg = none := rfl
    rw [resolvePort_of_no_arg (some ('+' :: natDigits n)) h0]
    simp [hp, defaultPort]

theorem c10_witness :
    443 ≤ 65535
    ∧ (rustParseU16 ('+' :: natDigits 443) = some 443
       ∧ resolvePort [str "app", wsFlag ++ '+' :: natDigits 443] none = 443
       ∧ resolvePort [str "app", '+' :: natDigits 443] none = 443
       ∧ resolvePort [str "app"] (some ('+' :: natDigits 443)) = 443) :=
  ⟨by decide, c10_leading_plus_accepted (str "app") [] none 443 (by decide)⟩
